import Mathlib

/-!
Verification of the lazy-dependency-resolution pattern described by this
repository against its specification.

The repository holds two source files:

* `src/dynamic_loader.py` — the `ExampleService` class: a config dict plus
  three lazily-loaded properties (`db_helper`, `logger`, `tool_manager`),
  each backed by an `Optional` field that starts at `None` and is filled by
  a deferred (`importlib`-based) constructor on first read, and a composite
  method `perform_operation`.
* `src/test_lazy_load_class.py` — a test suite for a `LazyLoadedClass`
  (two parameters `param1`/`param2`, lazily-loaded slots `dependent_class1`,
  `dependent_class2`, `logger`, plus `some_method`, `to_dict`,
  `add_dependent_class` and `validate_model`).  The implementation of
  `LazyLoadedClass` itself is not in the repository, so it is modelled from
  the specification and pinned to the concrete behaviour the test suite
  asserts.

External code (the dynamically imported constructors, the dependency
instances' methods, the logger) is modelled by environment records of
abstract functions; machine-level effects (construction, logging) are made
explicit as counters and log traces.
-/

namespace DynamicLoader

/-- Python-style values appearing in the dictionaries produced by `to_dict`
and consumed by `validate_model`: strings, integers and nested dicts. -/
inductive PyVal where
  | str : String → PyVal
  | int : Int → PyVal
  | dict : List (String × PyVal) → PyVal

/-- The three lazily-loaded dependency slots declared by `ExampleService`
(`src/dynamic_loader.py`, lines 40-42). -/
inductive ServiceSlot where
  | db_helper
  | logger
  | tool_manager
  deriving DecidableEq

/-- State of `ExampleService` (`src/dynamic_loader.py`, lines 37-42): a
configuration of type `C` plus one optional backing field per lazily-loaded
property, holding a (dynamically typed) instance of type `I` once resolved. -/
structure ExampleService (C I : Type) where
  config : C
  _db_helper : Option I
  _logger : Option I
  _tool_manager : Option I

/-- The external world reached by `ExampleService`: the constructors looked
up through `importlib.import_module` in `_initialize_db_helper`,
`_initialize_logger` and `_initialize_tool_manager` (lines 44-63), and the
methods `perform_operation` invokes on resolved instances (lines 96-98).
`R` is the type of tool/db results. -/
structure ServiceEnv (C I R : Type) where
  mkDBHelper : C → I
  mkCustomLogger : Unit → I
  mkToolManager : C → I
  run_tool : I → String → R
  save_result : I → R → R

/-- `ExampleService.__init__` (lines 38-42): stores the config and sets all
three backing fields to `None`.  It takes no `ServiceEnv`, reflecting that
construction of the owning object invokes no dependency constructor. -/
def initExampleService {C I : Type} (config : C) : ExampleService C I :=
  { config := config, _db_helper := none, _logger := none, _tool_manager := none }

/-- Read a slot's backing field directly, without triggering resolution
(the `self._db_helper`-style accesses the tests perform). -/
def readSlot {C I : Type} (s : ExampleService C I) : ServiceSlot → Option I
  | .db_helper => s._db_helper
  | .logger => s._logger
  | .tool_manager => s._tool_manager

/-- The lazy property getters (lines 65-90), uniformly over the slot name:
if the backing field is `None`, invoke the deferred constructor, store the
result and return it; otherwise return the cached instance unchanged.  The
returned `Nat` counts the constructor invocations performed by this call. -/
def getSlot {C I R : Type} (env : ServiceEnv C I R) (s : ExampleService C I) :
    ServiceSlot → I × ExampleService C I × Nat
  | .db_helper =>
    match s._db_helper with
    | some v => (v, s, 0)
    | none => (env.mkDBHelper s.config,
        { s with _db_helper := some (env.mkDBHelper s.config) }, 1)
  | .logger =>
    match s._logger with
    | some v => (v, s, 0)
    | none => (env.mkCustomLogger (),
        { s with _logger := some (env.mkCustomLogger ()) }, 1)
  | .tool_manager =>
    match s._tool_manager with
    | some v => (v, s, 0)
    | none => (env.mkToolManager s.config,
        { s with _tool_manager := some (env.mkToolManager s.config) }, 1)

/-- `ExampleService.perform_operation` (lines 92-99): reads `logger`,
`tool_manager` and `db_helper` through their lazy properties, runs
`run_tool` on the tool manager and `save_result` on the db helper, and
returns the db result. -/
def perform_operation {C I R : Type} (env : ServiceEnv C I R)
    (s : ExampleService C I) : R × ExampleService C I :=
  let p0 := getSlot env s .logger
  let p1 := getSlot env p0.2.1 .tool_manager
  let tool_result := env.run_tool p1.1 "example_tool"
  let p2 := getSlot env p1.2.1 .db_helper
  (env.save_result p2.1 tool_result, p2.2.1)

/-- The operations callable on an `ExampleService` instance. -/
inductive ServiceOp where
  | getOp : ServiceSlot → ServiceOp
  | performOp : ServiceOp

/-- Whether an operation performs a read access to the given slot
(`perform_operation` reads all three slots through their properties). -/
def ServiceOp.reads : ServiceOp → ServiceSlot → Bool
  | .getOp sl, sl' => decide (sl = sl')
  | .performOp, _ => true

/-- State effect of one `ExampleService` operation. -/
def runServiceOp {C I R : Type} (env : ServiceEnv C I R)
    (s : ExampleService C I) : ServiceOp → ExampleService C I
  | .getOp sl => (getSlot env s sl).2.1
  | .performOp => (perform_operation env s).2

/-- State after a sequence of `ExampleService` operations. -/
def runServiceTrace {C I R : Type} (env : ServiceEnv C I R)
    (s : ExampleService C I) : List ServiceOp → ExampleService C I
  | [] => s
  | op :: ops => runServiceTrace env (runServiceOp env s op) ops

/-- Log severities observed by the test suite (`debug` on slot resolution,
`info` on composite success, `error` on propagated failures). -/
inductive LogLevel where
  | debug
  | info
  | error
  deriving DecidableEq

/-- One log record: a severity and a message. -/
structure LogEntry where
  level : LogLevel
  msg : String
  deriving DecidableEq

/-- The two error kinds of spec §7.  In the test suite both surface as
`ValueError`: `add_dependent_class` with an unknown key raises
`ValueError("Unknown class type: ...")` (the spec's `UnknownSlotError`
"or equivalent") and `validate_model` raises
`ValueError("Invalid data for ExampleModel...")` (the spec's
`ValidationError`). -/
inductive LazyError where
  | UnknownSlotError : String → LazyError
  | ValidationError : String → LazyError

/-- Extract the message carried by a `LazyError`. -/
def LazyError.msg : LazyError → String
  | .UnknownSlotError m => m
  | .ValidationError m => m

/-- The three lazily-loaded slots of `LazyLoadedClass`, per
`test_initialization` (`src/test_lazy_load_class.py`, lines 49-55). -/
inductive LazySlot where
  | dependent_class1
  | dependent_class2
  | logger
  deriving DecidableEq

/-- Modelled from the spec: the implementation of `LazyLoadedClass` is not in
the repository — only its test suite (`src/test_lazy_load_class.py`) is.
State per spec §3 (owning object = fixed parameters + resolver slots) and
`test_initialization`: two construction-time parameters and three optional
backing fields for the lazily-resolved slots. -/
structure LazyLoadedClass (I : Type) where
  param1 : String
  param2 : Int
  _dependent_class1 : Option I
  _dependent_class2 : Option I
  _logger : Option I

/-- Modelled from the spec: the external world of `LazyLoadedClass` — the
deferred constructors of `DependentClass1`, `DependentClass2` and the logger,
and the methods invoked on resolved instances (`some_method`,
`another_method`, `to_dict`, per the mock fixtures of the test suite).
A method either returns a result or raises (an `Except.error` carrying the
exception message). -/
structure LazyEnv (I : Type) where
  mkDependentClass1 : Unit → I
  mkDependentClass2 : Unit → I
  mkLogger : Unit → I
  callSomeMethod : I → Except String String
  callAnotherMethod : I → Except String String
  callToDict : I → List (String × PyVal)

/-- Modelled from the spec: `LazyLoadedClass.__init__` per spec §3 and
`test_initialization` — stores the two parameters, all three backing
fields `None`; no dependency is constructed (no `LazyEnv` is consulted). -/
def initLazyLoadedClass {I : Type} (param1 : String) (param2 : Int) :
    LazyLoadedClass I :=
  { param1 := param1, param2 := param2, _dependent_class1 := none,
    _dependent_class2 := none, _logger := none }

/-- Read a slot's backing field directly, without triggering resolution. -/
def readLazySlot {I : Type} (s : LazyLoadedClass I) : LazySlot → Option I
  | .dependent_class1 => s._dependent_class1
  | .dependent_class2 => s._dependent_class2
  | .logger => s._logger

/-- Modelled from the spec: the lazy property getters of `LazyLoadedClass`
(spec §4.1 `get(name)`; tests `test_dependent_class1_lazy_loading` etc.) —
construct-on-first-use, cache, return; the `Nat` counts constructor
invocations performed by this call. -/
def getLazySlot {I : Type} (env : LazyEnv I) (s : LazyLoadedClass I) :
    LazySlot → I × LazyLoadedClass I × Nat
  | .dependent_class1 =>
    match s._dependent_class1 with
    | some v => (v, s, 0)
    | none => (env.mkDependentClass1 (),
        { s with _dependent_class1 := some (env.mkDependentClass1 ()) }, 1)
  | .dependent_class2 =>
    match s._dependent_class2 with
    | some v => (v, s, 0)
    | none => (env.mkDependentClass2 (),
        { s with _dependent_class2 := some (env.mkDependentClass2 ()) }, 1)
  | .logger =>
    match s._logger with
    | some v => (v, s, 0)
    | none => (env.mkLogger (),
        { s with _logger := some (env.mkLogger ()) }, 1)

/-- Modelled from the spec: `LazyLoadedClass.add_dependent_class(name, instance)`
(spec §4.1 `set(name, instance)`; `test_add_dependent_class`, lines 150-161):
stores `instance` in the named slot, or raises
`ValueError("Unknown class type: " + name)` — the spec's `UnknownSlotError` —
when `name` is not a declared slot of the operation. -/
def add_dependent_class {I : Type} (s : LazyLoadedClass I) (name : String)
    (inst : I) : Except LazyError (LazyLoadedClass I) :=
  if name = "dependent_class1" then
    .ok { s with _dependent_class1 := some inst }
  else if name = "dependent_class2" then
    .ok { s with _dependent_class2 := some inst }
  else
    .error (.UnknownSlotError ("Unknown class type: " ++ name))

/-- The slot (if any) named by a key accepted by `add_dependent_class`,
per `test_add_dependent_class`. -/
def slotOfName (name : String) : Option LazySlot :=
  if name = "dependent_class1" then some .dependent_class1
  else if name = "dependent_class2" then some .dependent_class2
  else none

/-- Modelled from the spec: `LazyLoadedClass.some_method` (spec §7 propagated
failures; tests `test_some_method` and `test_error_handling_in_some_method`):
calls `dependent_class1.some_method()` then `dependent_class2.another_method()`
through the lazy properties; on success logs info
`"Successfully called methods on lazy-loaded classes"` and returns
`{"result1": ..., "result2": ...}`; if either call raises, logs error
`"An error occurred in some_method: " + message` through the logger and
re-raises the exception unchanged.  Returns (result-or-exception, logs
emitted, final state). -/
def some_method {I : Type} (env : LazyEnv I) (s : LazyLoadedClass I) :
    Except String (List (String × PyVal)) × List LogEntry × LazyLoadedClass I :=
  let p1 := getLazySlot env s .dependent_class1
  match env.callSomeMethod p1.1 with
  | .error e =>
    let q := getLazySlot env p1.2.1 .logger
    (.error e, [⟨.error, "An error occurred in some_method: " ++ e⟩], q.2.1)
  | .ok r1 =>
    let p2 := getLazySlot env p1.2.1 .dependent_class2
    match env.callAnotherMethod p2.1 with
    | .error e =>
      let q := getLazySlot env p2.2.1 .logger
      (.error e, [⟨.error, "An error occurred in some_method: " ++ e⟩], q.2.1)
    | .ok r2 =>
      let q := getLazySlot env p2.2.1 .logger
      (.ok [("result1", .str r1), ("result2", .str r2)],
        [⟨.info, "Successfully called methods on lazy-loaded classes"⟩], q.2.1)

/-- Modelled from the spec: `LazyLoadedClass.to_dict` (spec §6; `test_to_dict`,
lines 128-148): a mapping of the object's own parameters plus, per dependency,
a nested mapping produced by that dependency's own `to_dict`, accessed through
the lazy properties (forcing resolution when unresolved, per spec §6).
Returns (dict, final state, constructor invocations). -/
def to_dict {I : Type} (env : LazyEnv I) (s : LazyLoadedClass I) :
    List (String × PyVal) × LazyLoadedClass I × Nat :=
  let p1 := getLazySlot env s .dependent_class1
  let p2 := getLazySlot env p1.2.1 .dependent_class2
  ([("param1", .str s.param1), ("param2", .int s.param2),
    ("dependent_class1", .dict (env.callToDict p1.1)),
    ("dependent_class2", .dict (env.callToDict p2.1))],
   p2.2.1, p1.2.2 + p2.2.2)

/-- Lookup of a key in a Python dict literal (first binding wins). -/
def lookupKey (k : String) : List (String × PyVal) → Option PyVal
  | [] => none
  | (k', v) :: rest => if k' = k then some v else lookupKey k rest

/-- Modelled from the spec: the `ExampleModel` pydantic schema is not in the
repository; reconstructed from spec §7 and `test_validate_model_success`
(lines 163-169) — a typed record with a string `id` and an integer `value`. -/
structure ExampleModel where
  id : String
  value : Int

/-- Modelled from the spec: `LazyLoadedClass.validate_model` (spec §7
`ValidationError`; tests lines 163-176): structural check of the input
mapping against `ExampleModel` (field presence and types); on success
returns the typed record with matching fields, on failure raises
`ValueError("Invalid data for ExampleModel")` — the spec's
`ValidationError`, whose message names the schema. -/
def validate_model (data : List (String × PyVal)) : Except LazyError ExampleModel :=
  match lookupKey "id" data with
  | some (.str i) =>
    match lookupKey "value" data with
    | some (.int v) => .ok { id := i, value := v }
    | _ => .error (.ValidationError "Invalid data for ExampleModel")
  | _ => .error (.ValidationError "Invalid data for ExampleModel")

/-- The `get`/`set` operations on a `LazyLoadedClass` (spec §3's transition
system; `set` with an unknown key raises and leaves the state unchanged). -/
inductive LazyOp (I : Type) where
  | getOp : LazySlot → LazyOp I
  | setOp : String → I → LazyOp I

/-- State effect of one `get`/`set` operation. -/
def runLazyOp {I : Type} (env : LazyEnv I) (s : LazyLoadedClass I) :
    LazyOp I → LazyLoadedClass I
  | .getOp sl => (getLazySlot env s sl).2.1
  | .setOp name inst =>
    match add_dependent_class s name inst with
    | .ok s' => s'
    | .error _ => s

/-- State after a sequence of `get`/`set` operations. -/
def runLazyTrace {I : Type} (env : LazyEnv I) (s : LazyLoadedClass I) :
    List (LazyOp I) → LazyLoadedClass I
  | [] => s
  | op :: ops => runLazyTrace env (runLazyOp env s op) ops

/-- Constructor invocations performed by one `get`/`set` operation
(`add_dependent_class` bypasses lazy construction and never invokes a
factory). -/
def lazyOpBuilds {I : Type} (env : LazyEnv I) (s : LazyLoadedClass I) :
    LazyOp I → Nat
  | .getOp sl => (getLazySlot env s sl).2.2
  | .setOp _ _ => 0

/-! ## Helper lemmas about `ExampleService` -/

/-- A lazy getter leaves every other slot's backing field unchanged. -/
theorem getSlot_other {C I R : Type} (env : ServiceEnv C I R)
    (s : ExampleService C I) {slot slot' : ServiceSlot} (h : slot' ≠ slot) :
    readSlot (getSlot env s slot).2.1 slot' = readSlot s slot' := by
  rcases s with ⟨cfg, db, lg, tm⟩
  cases slot <;> cases slot' <;> cases db <;> cases lg <;> cases tm <;>
    simp_all [getSlot, readSlot]

/-- A lazy getter leaves the configuration unchanged. -/
theorem getSlot_config {C I R : Type} (env : ServiceEnv C I R)
    (s : ExampleService C I) (slot : ServiceSlot) :
    (getSlot env s slot).2.1.config = s.config := by
  rcases s with ⟨cfg, db, lg, tm⟩
  cases slot <;> cases db <;> cases lg <;> cases tm <;> simp [getSlot]

/-- An operation that does not read a slot leaves that slot's backing field
unchanged. -/
theorem runServiceOp_not_reads {C I R : Type} (env : ServiceEnv C I R)
    (s : ExampleService C I) (op : ServiceOp) (slot : ServiceSlot)
    (h : op.reads slot = false) :
    readSlot (runServiceOp env s op) slot = readSlot s slot := by
  cases op with
  | getOp sl =>
    simp [ServiceOp.reads] at h
    exact getSlot_other env s (Ne.symm h)
  | performOp => simp [ServiceOp.reads] at h

/-- A trace of operations none of which reads a slot leaves that slot's
backing field unchanged. -/
theorem runServiceTrace_not_reads {C I R : Type} (env : ServiceEnv C I R)
    (s : ExampleService C I) (trace : List ServiceOp) (slot : ServiceSlot)
    (h : ∀ op ∈ trace, op.reads slot = false) :
    readSlot (runServiceTrace env s trace) slot = readSlot s slot := by
  induction trace generalizing s with
  | nil => rfl
  | cons op ops ih =>
    simp only [runServiceTrace]
    rw [ih _ fun o ho => h o (List.mem_cons_of_mem _ ho),
      runServiceOp_not_reads env s op slot (h op (List.mem_cons_self _ _))]

/-- A concrete external environment for `ExampleService`, used by witnesses. -/
def natServiceEnv : ServiceEnv Nat Nat Nat :=
  { mkDBHelper := fun c => c + 1, mkCustomLogger := fun _ => 7,
    mkToolManager := fun c => c * 2, run_tool := fun i _ => i + 10,
    save_result := fun i r => i + r }

/-! ## Claims about `ExampleService` -/

/-- C1: for every owning object and every declared slot name whose slot is
still unresolved, calling the lazy getter twice in sequence returns the
identical cached instance both times; the constructor is invoked exactly
once, on the first call, and the second call performs no construction and
leaves the state unchanged. -/
theorem get_twice_constructs_once {C I R : Type} (env : ServiceEnv C I R)
    (s : ExampleService C I) (slot : ServiceSlot)
    (h : readSlot s slot = none) :
    (getSlot env (getSlot env s slot).2.1 slot).1 = (getSlot env s slot).1 ∧
    (getSlot env s slot).2.2 = 1 ∧
    (getSlot env (getSlot env s slot).2.1 slot).2.2 = 0 ∧
    (getSlot env (getSlot env s slot).2.1 slot).2.1 = (getSlot env s slot).2.1 := by
  rcases s with ⟨cfg, db, lg, tm⟩
  cases slot <;> simp_all [readSlot, getSlot]

/-- Witness for C1 at a concrete service and slot. -/
theorem get_twice_constructs_once_witness :
    readSlot (initExampleService (C := Nat) (I := Nat) 5) .db_helper = none ∧
    (getSlot natServiceEnv (initExampleService (C := Nat) (I := Nat) 5)
      .db_helper).2.2 = 1 :=
  ⟨rfl, (get_twice_constructs_once natServiceEnv (initExampleService 5)
    .db_helper rfl).2.1⟩

/-- C2: immediately after `__init__` every declared slot is empty, and a
slot never becomes resolved without a read access to it: any trace of
operations containing no read of a slot leaves that slot empty (in
particular, construction of the owning object itself constructs no
dependency — `initExampleService` consults no `ServiceEnv`). -/
theorem slots_start_empty_until_read {C I R : Type} (env : ServiceEnv C I R)
    (cfg : C) :
    (∀ slot : ServiceSlot, readSlot (initExampleService (I := I) cfg) slot = none) ∧
    (∀ (trace : List ServiceOp) (slot : ServiceSlot),
      (∀ op ∈ trace, op.reads slot = false) →
      readSlot (runServiceTrace env (initExampleService cfg) trace) slot = none) := by
  constructor
  · intro slot; cases slot <;> rfl
  · intro trace slot h
    rw [runServiceTrace_not_reads env _ trace slot h]
    cases slot <;> rfl

/-- Witness for C2: fresh slots are empty and stay empty across a trace
that reads only the other slots. -/
theorem slots_start_empty_until_read_witness :
    readSlot (initExampleService (C := Nat) (I := Nat) 5) .db_helper = none ∧
    (∀ op ∈ [ServiceOp.getOp .logger, ServiceOp.getOp .tool_manager],
      op.reads ServiceSlot.db_helper = false) ∧
    readSlot (runServiceTrace natServiceEnv (initExampleService 5)
      [ServiceOp.getOp .logger, ServiceOp.getOp .tool_manager]) .db_helper = none :=
  ⟨(slots_start_empty_until_read natServiceEnv 5).1 .db_helper,
   by decide,
   (slots_start_empty_until_read natServiceEnv 5).2 _ _ (by decide)⟩

/-- C9: a read access to one dependency accessor resolves only that slot —
the constructor-set configuration and every other dependency slot have the
same value after the access as before it. -/
theorem lazy_property_frame {C I R : Type} (env : ServiceEnv C I R)
    (s : ExampleService C I) (slot slot' : ServiceSlot) (h : slot' ≠ slot) :
    readSlot (getSlot env s slot).2.1 slot' = readSlot s slot' ∧
    (getSlot env s slot).2.1.config = s.config :=
  ⟨getSlot_other env s h, getSlot_config env s slot⟩

/-- Witness for C9 at a concrete service: reading `db_helper` leaves
`logger` untouched. -/
theorem lazy_property_frame_witness :
    ServiceSlot.logger ≠ ServiceSlot.db_helper ∧
    readSlot (getSlot natServiceEnv (initExampleService 5) .db_helper).2.1
      .logger = readSlot (initExampleService (C := Nat) (I := Nat) 5) .logger :=
  ⟨by decide,
   (lazy_property_frame natServiceEnv (initExampleService 5) .db_helper
     .logger (by decide)).1⟩

/-! ## Helper lemmas about `LazyLoadedClass` -/

/-- The character list of an appended string has the second string's
characters as an infix. -/
theorem toList_append_infix (a b : String) :
    ∃ l r, (a ++ b).toList = l ++ b.toList ++ r :=
  ⟨a.toList, [], by simp [String.toList, String.data_append]⟩

/-- A lazy getter of `LazyLoadedClass` leaves every other slot's backing
field unchanged. -/
theorem getLazySlot_other {I : Type} (env : LazyEnv I) (s : LazyLoadedClass I)
    {sl sl' : LazySlot} (h : sl' ≠ sl) :
    readLazySlot (getLazySlot env s sl).2.1 sl' = readLazySlot s sl' := by
  rcases s with ⟨p1, p2, d1, d2, lg⟩
  cases sl <;> cases sl' <;> cases d1 <;> cases d2 <;> cases lg <;>
    simp_all [getLazySlot, readLazySlot]

/-- After a lazy getter, the accessed slot is resolved. -/
theorem getLazySlot_self_isSome {I : Type} (env : LazyEnv I)
    (s : LazyLoadedClass I) (sl : LazySlot) :
    (readLazySlot (getLazySlot env s sl).2.1 sl).isSome = true := by
  rcases s with ⟨p1, p2, d1, d2, lg⟩
  cases sl <;> cases d1 <;> cases d2 <;> cases lg <;>
    simp [getLazySlot, readLazySlot]

/-- A lazy getter invokes the constructor exactly when the slot is empty. -/
theorem getLazySlot_builds {I : Type} (env : LazyEnv I) (s : LazyLoadedClass I)
    (sl : LazySlot) :
    (getLazySlot env s sl).2.2 =
      match readLazySlot s sl with
      | none => 1
      | some _ => 0 := by
  rcases s with ⟨p1, p2, d1, d2, lg⟩
  cases sl <;> cases d1 <;> cases d2 <;> cases lg <;>
    simp [getLazySlot, readLazySlot]

/-- A successful `add_dependent_class` stored the instance in one of the two
declared slots. -/
theorem add_dependent_class_ok {I : Type} {s s₁ : LazyLoadedClass I}
    {name : String} {inst : I}
    (h : add_dependent_class s name inst = .ok s₁) :
    s₁ = { s with _dependent_class1 := some inst } ∨
    s₁ = { s with _dependent_class2 := some inst } := by
  unfold add_dependent_class at h
  split at h
  · exact Or.inl (Except.ok.inj h).symm
  · split at h
    · exact Or.inr (Except.ok.inj h).symm
    · exact Except.noConfusion h

/-- No `get`/`set` operation empties a resolved slot. -/
theorem runLazyOp_preserves_some {I : Type} (env : LazyEnv I)
    (s : LazyLoadedClass I) (op : LazyOp I) (slot : LazySlot)
    (h : (readLazySlot s slot).isSome = true) :
    (readLazySlot (runLazyOp env s op) slot).isSome = true := by
  cases op with
  | getOp sl =>
    by_cases hsl : slot = sl
    · subst hsl
      exact getLazySlot_self_isSome env s slot
    · simp only [runLazyOp]
      rw [getLazySlot_other env s hsl]
      exact h
  | setOp name inst =>
    simp only [runLazyOp]
    cases hadd : add_dependent_class s name inst with
    | ok s₁ =>
      rcases add_dependent_class_ok hadd with h' | h' <;> subst h' <;>
        cases slot <;> simp_all [readLazySlot]
    | error e =>
      exact h

/-- No trace of `get`/`set` operations empties a resolved slot. -/
theorem runLazyTrace_preserves_some {I : Type} (env : LazyEnv I)
    (s : LazyLoadedClass I) (trace : List (LazyOp I)) (slot : LazySlot)
    (h : (readLazySlot s slot).isSome = true) :
    (readLazySlot (runLazyTrace env s trace) slot).isSome = true := by
  induction trace generalizing s with
  | nil => exact h
  | cons op ops ih => exact ih _ (runLazyOp_preserves_some env s op slot h)

/-- A concrete external environment for `LazyLoadedClass`, used by
witnesses: instance `99` is a broken dependency whose methods raise. -/
def natLazyEnv : LazyEnv Nat :=
  { mkDependentClass1 := fun _ => 1, mkDependentClass2 := fun _ => 2,
    mkLogger := fun _ => 3,
    callSomeMethod := fun i =>
      if i = 99 then .error "Error in DependentClass1"
      else .ok "result_from_dependent_class1",
    callAnotherMethod := fun i =>
      if i = 99 then .error "Error in DependentClass2"
      else .ok "result_from_dependent_class2",
    callToDict := fun i => [("data", .int (i : Int))] }

/-- A concrete state whose two dependencies are resolved to working
instances. -/
def healthyLazyState : LazyLoadedClass Nat :=
  { param1 := "example_value", param2 := 42, _dependent_class1 := some 1,
    _dependent_class2 := some 2, _logger := some 3 }

/-- A concrete state whose first dependency is resolved to the broken
instance `99`. -/
def brokenLazyState : LazyLoadedClass Nat :=
  { param1 := "example_value", param2 := 42, _dependent_class1 := some 99,
    _dependent_class2 := some 2, _logger := some 3 }

/-! ## Claims about `LazyLoadedClass` -/

/-- C3: if a resolved dependency's method raises during `some_method`, the
composite operation raises the exception unchanged (same error message), and
an error-severity log entry containing the dependency's error message is
emitted as part of the failing call — whichever of the two dependencies
raises first. -/
theorem some_method_propagates_error {I : Type} (env : LazyEnv I)
    (s : LazyLoadedClass I) (d1 d2 : I) (e : String)
    (h1 : s._dependent_class1 = some d1)
    (h2 : s._dependent_class2 = some d2) :
    (env.callSomeMethod d1 = .error e →
      (some_method env s).1 = .error e ∧
      LogEntry.mk .error ("An error occurred in some_method: " ++ e) ∈
        (some_method env s).2.1 ∧
      ∃ l r, ("An error occurred in some_method: " ++ e).toList =
        l ++ e.toList ++ r) ∧
    (∀ r1, env.callSomeMethod d1 = .ok r1 →
      env.callAnotherMethod d2 = .error e →
      (some_method env s).1 = .error e ∧
      LogEntry.mk .error ("An error occurred in some_method: " ++ e) ∈
        (some_method env s).2.1 ∧
      ∃ l r, ("An error occurred in some_method: " ++ e).toList =
        l ++ e.toList ++ r) := by
  constructor
  · intro hc1
    refine ⟨?_, ?_, toList_append_infix _ e⟩ <;>
      simp [some_method, getLazySlot, h1, hc1]
  · intro r1 hc1 hc2
    refine ⟨?_, ?_, toList_append_infix _ e⟩ <;>
      simp [some_method, getLazySlot, h1, h2, hc1, hc2]

/-- Witness for C3: the broken dependency's exception propagates out of
`some_method` unchanged. -/
theorem some_method_propagates_error_witness :
    brokenLazyState._dependent_class1 = some 99 ∧
    brokenLazyState._dependent_class2 = some 2 ∧
    natLazyEnv.callSomeMethod 99 = .error "Error in DependentClass1" ∧
    (some_method natLazyEnv brokenLazyState).1 =
      .error "Error in DependentClass1" :=
  ⟨rfl, rfl, rfl,
   ((some_method_propagates_error natLazyEnv brokenLazyState 99 2
     "Error in DependentClass1" rfl rfl).1 rfl).1⟩

/-- C4: `add_dependent_class` with a name that is not a declared slot raises
an `UnknownSlotError` whose message contains the invalid key; with a declared
slot name it succeeds and stores the instance in that slot. -/
theorem add_dependent_class_spec {I : Type} (s : LazyLoadedClass I)
    (name : String) (inst : I) :
    (slotOfName name = none →
      ∃ msg, add_dependent_class s name inst = .error (.UnknownSlotError msg) ∧
        ∃ l r, msg.toList = l ++ name.toList ++ r) ∧
    (∀ slot, slotOfName name = some slot →
      ∃ s₁, add_dependent_class s name inst = .ok s₁ ∧
        readLazySlot s₁ slot = some inst) := by
  constructor
  · intro h
    by_cases hn1 : name = "dependent_class1"
    · subst hn1; simp [slotOfName] at h
    · by_cases hn2 : name = "dependent_class2"
      · subst hn2; simp [slotOfName] at h
      · exact ⟨"Unknown class type: " ++ name,
          by simp [add_dependent_class, hn1, hn2],
          toList_append_infix _ name⟩
  · intro slot h
    by_cases hn1 : name = "dependent_class1"
    · subst hn1
      simp [slotOfName] at h
      subst h
      exact ⟨{ s with _dependent_class1 := some inst },
        by simp [add_dependent_class], by simp [readLazySlot]⟩
    · by_cases hn2 : name = "dependent_class2"
      · subst hn2
        simp [slotOfName] at h
        subst h
        exact ⟨{ s with _dependent_class2 := some inst },
          by simp [add_dependent_class], by simp [readLazySlot]⟩
      · simp [slotOfName, hn1, hn2] at h

/-- Witness for C4: injecting under the key `"invalid_class"` raises an
`UnknownSlotError` naming the key. -/
theorem add_dependent_class_spec_witness :
    slotOfName "invalid_class" = none ∧
    ∃ msg, add_dependent_class (initLazyLoadedClass (I := Nat) "example_value" 42)
        "invalid_class" 7 = .error (.UnknownSlotError msg) ∧
      ∃ l r, msg.toList = l ++ "invalid_class".toList ++ r :=
  ⟨rfl, (add_dependent_class_spec (initLazyLoadedClass "example_value" 42)
    "invalid_class" 7).1 rfl⟩

/-- C5: validation against the `ExampleModel` schema returns a typed record
with fields equal to the input when the input matches the schema, and raises
a `ValidationError` whose message contains the schema's name when the input
fails the structural check. -/
theorem validate_model_spec (data : List (String × PyVal)) :
    (∀ i v, lookupKey "id" data = some (.str i) →
      lookupKey "value" data = some (.int v) →
      validate_model data = .ok { id := i, value := v }) ∧
    ((¬ ∃ i v, lookupKey "id" data = some (.str i) ∧
        lookupKey "value" data = some (.int v)) →
      ∃ msg, validate_model data = .error (.ValidationError msg) ∧
        ∃ l r, msg.toList = l ++ "ExampleModel".toList ++ r) := by
  constructor
  · intro i v hid hv
    simp [validate_model, hid, hv]
  · intro h
    have hmsg : "Invalid data for ExampleModel" =
        "Invalid data for " ++ "ExampleModel" := rfl
    refine ⟨"Invalid data for ExampleModel", ?_,
      hmsg ▸ toList_append_infix "Invalid data for " "ExampleModel"⟩
    rcases hid : lookupKey "id" data with _ | vid
    · simp [validate_model, hid]
    · rcases vid with si | ii | di
      · rcases hv : lookupKey "value" data with _ | vv
        · simp [validate_model, hid, hv]
        · rcases vv with sv | iv | dv
          · simp [validate_model, hid, hv]
          · exact absurd ⟨si, iv, hid, hv⟩ h
          · simp [validate_model, hid, hv]
      · simp [validate_model, hid]
      · simp [validate_model, hid]

/-- Witness for C5 at the spec's two example inputs. -/
theorem validate_model_spec_witness :
    validate_model [("id", PyVal.str "123"), ("value", PyVal.int 10)] =
      .ok { id := "123", value := 10 } ∧
    ∃ msg, validate_model
        [("id", PyVal.str "123"), ("value", PyVal.str "not_an_int")] =
      .error (.ValidationError msg) ∧
      ∃ l r, msg.toList = l ++ "ExampleModel".toList ++ r := by
  have hne : ¬ ∃ i v,
      lookupKey "id" [("id", PyVal.str "123"), ("value", PyVal.str "not_an_int")] =
        some (.str i) ∧
      lookupKey "value" [("id", PyVal.str "123"), ("value", PyVal.str "not_an_int")] =
        some (.int v) := by
    rintro ⟨i, v, h1, h2⟩
    simp [lookupKey] at h2
  exact ⟨(validate_model_spec _).1 "123" 10 rfl rfl,
    (validate_model_spec _).2 hne⟩

/-- C6: `to_dict` on an owning object with `param1="example_value"`,
`param2=42` and two resolved dependencies yields the object's own parameters
plus exactly one nested mapping per resolved dependency, each produced by
that dependency's own `to_dict`. -/
theorem to_dict_serializes_resolved {I : Type} (env : LazyEnv I)
    (s : LazyLoadedClass I) (d1 d2 : I)
    (hp1 : s.param1 = "example_value") (hp2 : s.param2 = 42)
    (h1 : s._dependent_class1 = some d1)
    (h2 : s._dependent_class2 = some d2) :
    (to_dict env s).1 =
      [("param1", .str "example_value"), ("param2", .int 42),
       ("dependent_class1", .dict (env.callToDict d1)),
       ("dependent_class2", .dict (env.callToDict d2))] := by
  simp [to_dict, getLazySlot, h1, h2, hp1, hp2]

/-- Witness for C6 at a concrete fully-resolved state. -/
theorem to_dict_serializes_resolved_witness :
    healthyLazyState.param1 = "example_value" ∧ healthyLazyState.param2 = 42 ∧
    healthyLazyState._dependent_class1 = some 1 ∧
    healthyLazyState._dependent_class2 = some 2 ∧
    (to_dict natLazyEnv healthyLazyState).1 =
      [("param1", .str "example_value"), ("param2", .int 42),
       ("dependent_class1", .dict (natLazyEnv.callToDict 1)),
       ("dependent_class2", .dict (natLazyEnv.callToDict 2))] :=
  ⟨rfl, rfl, rfl, rfl,
   to_dict_serializes_resolved natLazyEnv healthyLazyState 1 2 rfl rfl rfl rfl⟩

/-- C7: injecting an instance under a declared slot name and then reading
that slot returns exactly the injected instance, with the lazy constructor
never invoked (construction count 0) and the state unchanged by the read. -/
theorem set_then_get_returns_instance {I : Type} (env : LazyEnv I)
    (s : LazyLoadedClass I) (inst : I) (name : String) (slot : LazySlot)
    (h : slotOfName name = some slot) :
    ∃ s₁, add_dependent_class s name inst = .ok s₁ ∧
      getLazySlot env s₁ slot = (inst, s₁, 0) := by
  by_cases hn1 : name = "dependent_class1"
  · subst hn1
    simp [slotOfName] at h
    subst h
    exact ⟨{ s with _dependent_class1 := some inst },
      by simp [add_dependent_class], by simp [getLazySlot]⟩
  · by_cases hn2 : name = "dependent_class2"
    · subst hn2
      simp [slotOfName] at h
      subst h
      exact ⟨{ s with _dependent_class2 := some inst },
        by simp [add_dependent_class], by simp [getLazySlot]⟩
    · simp [slotOfName, hn1, hn2] at h

/-- Witness for C7 at a concrete injection. -/
theorem set_then_get_returns_instance_witness :
    slotOfName "dependent_class1" = some LazySlot.dependent_class1 ∧
    ∃ s₁, add_dependent_class (initLazyLoadedClass (I := Nat) "example_value" 42)
        "dependent_class1" 7 = .ok s₁ ∧
      getLazySlot natLazyEnv s₁ .dependent_class1 = (7, s₁, 0) :=
  ⟨rfl, set_then_get_returns_instance natLazyEnv
    (initLazyLoadedClass "example_value" 42) 7 "dependent_class1"
    .dependent_class1 rfl⟩

/-- C8: slot transitions are one-directional — once a slot is resolved, no
sequence of `get`/`set` operations returns it to the empty state — and the
lazy constructor fires exactly on a read access to an empty slot (never on
`set`, never on a read of a resolved slot). -/
theorem slot_resolution_one_directional {I : Type} (env : LazyEnv I) :
    (∀ (s : LazyLoadedClass I) (slot : LazySlot) (trace : List (LazyOp I)),
      (readLazySlot s slot).isSome = true →
      (readLazySlot (runLazyTrace env s trace) slot).isSome = true) ∧
    (∀ (s : LazyLoadedClass I) (op : LazyOp I),
      0 < lazyOpBuilds env s op ↔
        ∃ slot, op = .getOp slot ∧ readLazySlot s slot = none) := by
  constructor
  · exact fun s slot trace h => runLazyTrace_preserves_some env s trace slot h
  · intro s op
    cases op with
    | getOp sl =>
      simp only [lazyOpBuilds, getLazySlot_builds]
      rcases hf : readLazySlot s sl with _ | v
      · simp only []
        constructor
        · exact fun _ => ⟨sl, rfl, hf⟩
        · exact fun _ => Nat.zero_lt_one
      · simp only []
        constructor
        · intro hb; exact absurd hb (by simp)
        · rintro ⟨slot, hop, hempty⟩
          injection hop with hop
          subst hop
          rw [hf] at hempty
          exact Option.noConfusion hempty
    | setOp name inst =>
      simp [lazyOpBuilds]

/-- Witness for C8: a resolved slot stays resolved across a `set` with an
unknown key followed by a re-read. -/
theorem slot_resolution_one_directional_witness :
    (readLazySlot healthyLazyState .dependent_class1).isSome = true ∧
    (readLazySlot (runLazyTrace natLazyEnv healthyLazyState
      [LazyOp.setOp "invalid_class" 9, LazyOp.getOp .dependent_class1])
      .dependent_class1).isSome = true :=
  ⟨rfl, (slot_resolution_one_directional natLazyEnv).1
    healthyLazyState .dependent_class1
    [LazyOp.setOp "invalid_class" 9, LazyOp.getOp .dependent_class1] rfl⟩

/-- C10: `some_method` on an owning object whose two dependency slots are
resolved and whose dependencies' methods both succeed returns a mapping with
exactly the two keys `"result1"` and `"result2"` bound to the two methods'
results, and emits an info-level success log entry. -/
theorem some_method_success_spec {I : Type} (env : LazyEnv I)
    (s : LazyLoadedClass I) (d1 d2 : I) (r1 r2 : String)
    (h1 : s._dependent_class1 = some d1)
    (h2 : s._dependent_class2 = some d2)
    (hc1 : env.callSomeMethod d1 = .ok r1)
    (hc2 : env.callAnotherMethod d2 = .ok r2) :
    (some_method env s).1 =
      .ok [("result1", .str r1), ("result2", .str r2)] ∧
    LogEntry.mk .info "Successfully called methods on lazy-loaded classes" ∈
      (some_method env s).2.1 := by
  constructor <;> simp [some_method, getLazySlot, h1, h2, hc1, hc2]

/-- Witness for C10 at a concrete fully-resolved state with working
dependencies. -/
theorem some_method_success_spec_witness :
    healthyLazyState._dependent_class1 = some 1 ∧
    healthyLazyState._dependent_class2 = some 2 ∧
    natLazyEnv.callSomeMethod 1 = .ok "result_from_dependent_class1" ∧
    natLazyEnv.callAnotherMethod 2 = .ok "result_from_dependent_class2" ∧
    (some_method natLazyEnv healthyLazyState).1 =
      .ok [("result1", .str "result_from_dependent_class1"),
           ("result2", .str "result_from_dependent_class2")] :=
  ⟨rfl, rfl, rfl, rfl,
   (some_method_success_spec natLazyEnv healthyLazyState 1 2
     "result_from_dependent_class1" "result_from_dependent_class2"
     rfl rfl rfl rfl).1⟩

end DynamicLoader
